import Mathlib

/-!
Verification of the startup-radar ingestion pipeline
(reddit scraper / AI analyzer / persistence layer).

The JavaScript sources are shallowly embedded:
  * JSON values (`JSON.parse` results, model output) become the inductive `Json`;
  * JS truthiness is made explicit (`jsTruthy`, `jsStrOr`, `jsNatOrZero`);
  * the Supabase store becomes an explicit `DbState` threaded through
    `savePostToDatabase`, with injectable failures (`DbBehavior`);
  * promise rejection / `throw` becomes `Except String`.
-/

namespace StartupRadar

/-- A JSON value, as produced by `JSON.parse` or by the model-output parser.
Numbers are rationals (JS numbers on the values this pipeline handles). -/
inductive Json where
  | null : Json
  | bool (b : Bool) : Json
  | num (q : ℚ) : Json
  | str (s : String) : Json
  | arr (xs : List Json) : Json
  | obj (kvs : List (String × Json)) : Json

/-- Field lookup on a JS object: later bindings shadow earlier ones
(`JSON.parse` keeps the last duplicate key); any non-object has no fields. -/
def Json.getField : Json → String → Option Json
  | .obj kvs, k => kvs.foldl (fun acc p => if p.1 = k then some p.2 else acc) none
  | _, _ => none

/-- JS truthiness of a JSON value: `null`, `false`, `0` and `""` are falsy;
every array and object is truthy. -/
def Json.jsTruthy : Json → Bool
  | .null => false
  | .bool b => b
  | .num q => q ≠ 0
  | .str s => s ≠ ""
  | .arr _ => true
  | .obj _ => true

/-- JS `typeof x === 'object' && x`: true exactly for objects and arrays
(`typeof null` is `'object'` but `null` is falsy and rejected separately). -/
def Json.isObjectLike : Json → Bool
  | .obj _ => true
  | .arr _ => true
  | _ => false

/-- JS `s || d` for a possibly-absent string: the default is taken when the
string is absent (`undefined`) or empty (falsy). -/
def jsStrOr (s : Option String) (d : String) : String :=
  match s with
  | some v => if v = "" then d else v
  | none => d

/-- JS `n || 0` for a possibly-absent non-negative count (`post.ups || 0`). -/
def jsNatOrZero (n : Option Nat) : Nat :=
  match n with
  | some v => if v = 0 then 0 else v
  | none => 0

/-! ## Persistence layer (`scripts/lib/database.js`) -/

/-- The parent-table input assembled by the orchestrator (`postData`). -/
structure PostData where
  reddit_id : String
  subreddit : String
  title : String
  content : String
  author : String
  upvotes : Nat
  comments : Nat
  url : String
  metadata : Json

/-- The dependent-table input assembled by the orchestrator (`analyticsData`).
`tags`, `prompt_id` and `prompt_version` keep their JS-optional nature because
`savePostToDatabase` re-applies `|| []` / `|| 'fallback'` defaults itself. -/
structure AnalyticsData where
  sentiment_score : ℚ
  relevance_score : ℚ
  innovation_score : ℚ
  market_viability : ℚ
  trending_score : Nat
  ai_summary : Json
  tags : Option (List Json)
  prompt_id : Option String
  prompt_version : Option String

/-- A persisted row of the `posts` table; `id` is the generated identifier. -/
structure PostRow where
  id : Nat
  reddit_id : String
  subreddit : String
  title : String
  content : String
  author : String
  upvotes : Nat
  comments : Nat
  url : String
  metadata : Json

/-- A persisted row of the `post_analytics` table (the wall-clock
`analyzed_at` timestamp column is outside the model). -/
structure AnalyticsRow where
  post_id : Nat
  sentiment_score : ℚ
  relevance_score : ℚ
  innovation_score : ℚ
  market_viability : ℚ
  trending_score : Nat
  ai_summary : Json
  tags : List Json
  prompt_id : String
  prompt_version : String

/-- The two related tables plus the generator for fresh parent identifiers. -/
structure DbState where
  posts : List PostRow
  analytics : List AnalyticsRow
  nextId : Nat

/-- Outcome of one Supabase insert: success, a returned error object
(the client's normal failure channel), or a rejected promise (a JS throw). -/
inductive InsertOutcome where
  | ok : InsertOutcome
  | errObj (msg : String) : InsertOutcome
  | raise (msg : String) : InsertOutcome
deriving DecidableEq

/-- Failure injection for one `savePostToDatabase` call: the existence check
may reject (`checkRaise`) or return an error object with `data = null`
(`checkErrObj`, which the code ignores), and each insert has an outcome. -/
structure DbBehavior where
  checkRaise : Option String
  checkErrObj : Bool
  postInsert : InsertOutcome
  analyticsInsert : InsertOutcome
deriving DecidableEq

/-- The tagged result object of `savePostToDatabase`:
`{skipped, reason}`, `{saved, data, warning?}`, or `{error}`. -/
inductive SaveResult where
  | skipped (reason : String) : SaveResult
  | saved (warning : Option String) : SaveResult
  | error (msg : String) : SaveResult
deriving DecidableEq

/-- The `posts` row inserted for `p` when the parent insert succeeds. -/
def newPostRow (p : PostData) (db : DbState) : PostRow :=
  { id := db.nextId
    reddit_id := p.reddit_id
    subreddit := p.subreddit
    title := p.title
    content := p.content
    author := p.author
    upvotes := p.upvotes
    comments := p.comments
    url := p.url
    metadata := p.metadata }

/-- The `post_analytics` row inserted for `a` referencing parent `postId`,
with the code's `|| []` and `|| 'fallback'` defaults. -/
def newAnalyticsRow (a : AnalyticsData) (postId : Nat) : AnalyticsRow :=
  { post_id := postId
    sentiment_score := a.sentiment_score
    relevance_score := a.relevance_score
    innovation_score := a.innovation_score
    market_viability := a.market_viability
    trending_score := a.trending_score
    ai_summary := a.ai_summary
    tags := a.tags.getD []
    prompt_id := jsStrOr a.prompt_id "fallback"
    prompt_version := jsStrOr a.prompt_version "fallback" }

/-- Embedding of `savePostToDatabase` (`scripts/lib/database.js`).
The whole body sits in a `try` whose `catch` returns `{error: message}`.
The existence check uses `.select('id').eq('reddit_id', …).single()`:
`.single()` yields a row exactly when the filter matches one row, and its
error object is discarded by the destructuring. A parent-insert error object
is re-thrown as ``Failed to save post: …``; an analytics-insert error object
is tolerated and reported as a warning on a `saved` result. -/
def savePostToDatabase (p : PostData) (a : AnalyticsData)
    (db : DbState) (beh : DbBehavior) : SaveResult × DbState :=
  match beh.checkRaise with
  | some m => (.error m, db)
  | none =>
    let existing : Bool :=
      if beh.checkErrObj then false
      else (db.posts.filter (fun r => r.reddit_id == p.reddit_id)).length == 1
    if existing then (.skipped "Post already exists", db)
    else
      match beh.postInsert with
      | .raise m => (.error m, db)
      | .errObj m => (.error ("Failed to save post: " ++ m), db)
      | .ok =>
        let savedPost := newPostRow p db
        let db1 : DbState :=
          { posts := db.posts ++ [savedPost]
            analytics := db.analytics
            nextId := db.nextId + 1 }
        match beh.analyticsInsert with
        | .raise m => (.error m, db1)
        | .errObj m =>
          (.saved (some ("Post saved but analytics failed: " ++ m)), db1)
        | .ok =>
          (.saved none,
           { db1 with analytics := db1.analytics ++ [newAnalyticsRow a savedPost.id] })

/-! ## JSON parsing (`JSON.parse` applied to the extracted model output) -/

/-- JSON whitespace: space, tab, line feed, carriage return. -/
def isJsonWs (c : Char) : Bool :=
  c == ' ' || c == '\t' || c == '\n' || c == '\r'

/-- Drop leading JSON whitespace. -/
def skipWs (cs : List Char) : List Char := cs.dropWhile isJsonWs

/-- Value of one hexadecimal digit. -/
def hexVal (c : Char) : Option Nat :=
  if '0' ≤ c ∧ c ≤ '9' then some (c.toNat - 48)
  else if 'a' ≤ c ∧ c ≤ 'f' then some (c.toNat - 87)
  else if 'A' ≤ c ∧ c ≤ 'F' then some (c.toNat - 55)
  else none

/-- Single-character JSON string escapes. -/
def escChar (e : Char) : Option Char :=
  if e == '"' then some '"'
  else if e == '\\' then some '\\'
  else if e == '/' then some '/'
  else if e == 'b' then some (Char.ofNat 8)
  else if e == 'f' then some (Char.ofNat 12)
  else if e == 'n' then some '\n'
  else if e == 'r' then some '\r'
  else if e == 't' then some '\t'
  else none

/-- Body of a JSON string literal, after the opening quote: characters up to
the closing quote, with escapes; unescaped control characters are rejected.
(Astral characters via surrogate pairs are outside the model.) -/
def pStringBody : Nat → List Char → Option (String × List Char)
  | 0, _ => none
  | fuel+1, cs =>
    match cs with
    | [] => none
    | '"' :: rest => some ("", rest)
    | '\\' :: rest =>
      match rest with
      | 'u' :: a :: b :: c :: d :: r =>
        match hexVal a, hexVal b, hexVal c, hexVal d with
        | some x, some y, some z, some w =>
          (pStringBody fuel r).map
            (fun p => (String.mk (Char.ofNat (((x*16+y)*16+z)*16+w) :: p.1.data), p.2))
        | _, _, _, _ => none
      | e :: r =>
        match escChar e with
        | some c2 => (pStringBody fuel r).map (fun p => (String.mk (c2 :: p.1.data), p.2))
        | none => none
      | [] => none
    | c :: rest =>
      if c.toNat < 32 then none
      else (pStringBody fuel rest).map (fun p => (String.mk (c :: p.1.data), p.2))

/-- Digit list to a natural number. -/
def digitsToNat (ds : List Char) : Nat :=
  ds.foldl (fun n c => n * 10 + (c.toNat - 48)) 0

/-- A JSON number: optional minus, integer part without leading zeros,
optional fraction, optional exponent. -/
def pNumber (cs : List Char) : Option (ℚ × List Char) :=
  let signed : Bool × List Char :=
    match cs with
    | '-' :: r => (true, r)
    | _ => (false, cs)
  let intPart : Option (Nat × List Char) :=
    match signed.2 with
    | '0' :: r => some (0, r)
    | c :: _ =>
      if c.isDigit then
        some (digitsToNat (signed.2.takeWhile Char.isDigit),
              signed.2.dropWhile Char.isDigit)
      else none
    | [] => none
  match intPart with
  | none => none
  | some (i, r1) =>
    let fracPart : Option (Nat × Nat × List Char) :=
      match r1 with
      | '.' :: r =>
        let ds := r.takeWhile Char.isDigit
        if ds.isEmpty then none
        else some (digitsToNat ds, ds.length, r.dropWhile Char.isDigit)
      | _ => some (0, 0, r1)
    match fracPart with
    | none => none
    | some (fnum, fden, r2) =>
      let expPart : Option (Int × List Char) :=
        match r2 with
        | 'e' :: r => pExp r
        | 'E' :: r => pExp r
        | _ => some (0, r2)
      match expPart with
      | none => none
      | some (e, r3) =>
        let mag : ℚ := ((i : ℚ) + (fnum : ℚ) / (10 : ℚ) ^ fden) * (10 : ℚ) ^ e
        some (if signed.1 then -mag else mag, r3)
where
  /-- Exponent: optional sign then at least one digit. -/
  pExp (r : List Char) : Option (Int × List Char) :=
    let sgn : Bool × List Char :=
      match r with
      | '+' :: r2 => (false, r2)
      | '-' :: r2 => (true, r2)
      | _ => (false, r)
    let ds := sgn.2.takeWhile Char.isDigit
    if ds.isEmpty then none
    else
      let n : Int := digitsToNat ds
      some (if sgn.1 then -n else n, sgn.2.dropWhile Char.isDigit)

mutual

/-- A JSON value (fuel-indexed recursive descent). -/
def pValue : Nat → List Char → Option (Json × List Char)
  | 0, _ => none
  | fuel+1, cs =>
    match skipWs cs with
    | 't' :: 'r' :: 'u' :: 'e' :: r => some (.bool true, r)
    | 'f' :: 'a' :: 'l' :: 's' :: 'e' :: r => some (.bool false, r)
    | 'n' :: 'u' :: 'l' :: 'l' :: r => some (.null, r)
    | '"' :: r => (pStringBody (fuel+1) r).map (fun p => (.str p.1, p.2))
    | '\x7b' :: r => pObjectBody fuel r
    | '[' :: r => pArrayBody fuel r
    | c :: r => (pNumber (c :: r)).map (fun p => (.num p.1, p.2))
    | [] => none

/-- Object body after the opening brace. -/
def pObjectBody : Nat → List Char → Option (Json × List Char)
  | 0, _ => none
  | fuel+1, cs =>
    match skipWs cs with
    | '\x7d' :: r => some (.obj [], r)
    | rest => pMembers fuel rest []

/-- One or more `"key": value` members separated by commas. -/
def pMembers : Nat → List Char → List (String × Json) → Option (Json × List Char)
  | 0, _, _ => none
  | fuel+1, cs, acc =>
    match skipWs cs with
    | '"' :: r =>
      match pStringBody (fuel+1) r with
      | none => none
      | some (k, r1) =>
        match skipWs r1 with
        | ':' :: r2 =>
          match pValue fuel r2 with
          | none => none
          | some (v, r3) =>
            match skipWs r3 with
            | ',' :: r4 => pMembers fuel r4 (acc ++ [(k, v)])
            | '\x7d' :: r4 => some (.obj (acc ++ [(k, v)]), r4)
            | _ => none
        | _ => none
    | _ => none

/-- Array body after the opening bracket. -/
def pArrayBody : Nat → List Char → Option (Json × List Char)
  | 0, _ => none
  | fuel+1, cs =>
    match skipWs cs with
    | ']' :: r => some (.arr [], r)
    | rest => pElems fuel rest []

/-- One or more array elements separated by commas. -/
def pElems : Nat → List Char → List Json → Option (Json × List Char)
  | 0, _, _ => none
  | fuel+1, cs, acc =>
    match pValue fuel cs with
    | none => none
    | some (v, r) =>
      match skipWs r with
      | ',' :: r2 => pElems fuel r2 (acc ++ [v])
      | ']' :: r2 => some (.arr (acc ++ [v]), r2)
      | _ => none

end

/-- Embedding of `JSON.parse`: one JSON value surrounded only by whitespace.
The fuel bound exceeds the number of parser steps possible on the input. -/
def jsonParse (s : String) : Option Json :=
  match pValue (4 * s.length + 8) s.data with
  | some (j, rest) => if (skipWs rest).isEmpty then some j else none
  | none => none

/-! ## The `/\x7b[\s\S]*\x7d/` extraction regex of the repair step -/

/-- Scanner behind `extractJson`: the regex `/\x7b[\s\S]*\x7d/` matches from
the first `'\x7b'` that has a `'\x7d'` somewhere after it, greedily up to the
last such `'\x7d'`. -/
def extractGo : List Char → Option (List Char)
  | [] => none
  | c :: rest =>
    if c = '\x7b' ∧ '\x7d' ∈ rest then
      some (c :: (rest.reverse.dropWhile (fun d => d != '\x7d')).reverse)
    else extractGo rest

/-- Embedding of `rawResponse.content.match(/\x7b[\s\S]*\x7d/)`: the matched
substring, when a match exists. -/
def extractJson (s : String) : Option String :=
  (extractGo s.data).map String.mk

/-- Helper for `firstBalancedBrace`: read characters, tracking brace depth,
until the depth returns to zero. -/
def balancedFrom : List Char → Nat → List Char → Option (List Char)
  | [], _, _ => none
  | c :: rest, d, acc =>
    if c = '\x7b' then balancedFrom rest (d+1) (acc ++ [c])
    else if c = '\x7d' then
      match d with
      | 0 => none
      | 1 => some (acc ++ [c])
      | d'+2 => balancedFrom rest (d'+1) (acc ++ [c])
    else balancedFrom rest d (acc ++ [c])

/-- Formalisation of the spec's phrase "the first `{...}` balanced-brace
substring of the raw text", used only to compare the spec's description of
the repair step with the code's actual regex (`extractJson`). -/
def firstBalancedBrace (s : String) : Option String :=
  (go s.data).map String.mk
where
  /-- Find the first opening brace, then close it at depth zero. -/
  go : List Char → Option (List Char)
    | [] => none
    | c :: rest => if c = '\x7b' then balancedFrom rest 1 [c] else go rest

/-! ## Scoring engine (`scripts/lib/ai-analyzer.js`) -/

/-- Metadata of a registry prompt: `is_active` and `is_langchain_prompt` are
JS-truthy flags, `version` is an optional string. -/
structure PromptMeta where
  is_active : Bool
  version : Option String
  is_langchain_prompt : Bool

/-- A LangChain Hub prompt object; `inputVariables` may be absent. -/
structure LCPrompt where
  inputVariables : Option (List String)

/-- A prompt returned by the registry admin client. -/
structure Prompt where
  id : String
  prompt : String
  metadata : PromptMeta
  langchain_prompt : Option LCPrompt

/-- A fetched Reddit post (the fields this pipeline reads). Optional fields
model possibly-absent provider fields guarded by `||` in the code. -/
structure RedditPost where
  id : String
  title : String
  selftext : Option String
  author : String
  permalink : String
  ups : Option Nat
  num_comments : Option Nat
  source_subreddit : String
  created_utc : Json
  score : Json
  upvote_ratio : Json

/-- The environment of one `analyzePost` call: the registry admin client,
the fallback-prompt file, and the two model invocations (strict-JSON chain
and raw chain), each keyed by the chain-input variable name and content.
A JS `throw` / rejected promise is an `Except.error`. -/
structure Env where
  admin : Bool
  getPrompts : Except String (List Prompt)
  fallbackPrompt : Except String String
  chainInvoke : String → String → Except String Json
  rawInvoke : String → String → Except String String

/-- The validated analysis object returned by `analyzePost`. -/
structure AnalysisResult where
  summary : Json
  sentiment_score : ℚ
  relevance_score : ℚ
  innovation_score : ℚ
  market_viability : ℚ
  tags : List Json
  prompt_id : String
  prompt_version : String

/-- The recognized placeholder names of the resolver. -/
def recognizedVars : List String := ["content", "post", "text"]

/-- Embedding of the `hasValidInputVars` check: some declared placeholder is
recognized, or exactly one placeholder is declared and its name is shorter
than 50 characters. -/
def hasValidInputVars (vars : List String) : Bool :=
  vars.any (fun v => recognizedVars.contains v) ||
    (vars.length == 1 && decide ((vars.headD "").length < 50))

/-- The input content: `"Title: ...\n\nContent: ..."` with
`post.selftext || 'No content'`. -/
def mkContent (post : RedditPost) : String :=
  "Title: " ++ post.title ++ "\n\nContent: " ++ jsStrOr post.selftext "No content"

/-- The active prompt: `prompts.find(p => p.metadata.is_active)` when the
admin client exists and its call succeeds; a failed call is logged and
leaves `activePrompt` null. -/
def findActivePrompt (env : Env) : Option Prompt :=
  if env.admin then
    match env.getPrompts with
    | .ok ps => ps.find? (fun p => p.metadata.is_active)
    | .error _ => none
  else none

/-- Which template object ends up in `promptTemplate`. -/
inductive ResolvedTemplate where
  | hub (p : Prompt)
  | fromString (s : String)

/-- Template resolution of `analyzePost` (lines 14-65 of the analyzer):
a hub prompt with valid input variables is used directly; one with invalid
variables nulls `activePrompt` and falls through to the fallback file, as
does having no active prompt; a non-hub prompt's template string is used.
Loading the fallback file can itself fail (propagating to the top catch). -/
def resolvePrompt (env : Env) : Except String (Option Prompt × ResolvedTemplate) :=
  match findActivePrompt env with
  | some p =>
    match p.metadata.is_langchain_prompt, p.langchain_prompt with
    | true, some lc =>
      if hasValidInputVars (lc.inputVariables.getD []) then
        .ok (some p, .hub p)
      else
        (env.fallbackPrompt).map (fun fb => (none, .fromString fb))
    | _, _ => .ok (some p, .fromString p.prompt)
  | none => (env.fallbackPrompt).map (fun fb => (none, .fromString fb))

/-- The chain-input variable name: for a hub template, the first recognized
name among its input variables (else the first variable); for any template
string (including the fallback), `"content"`. -/
def chainKey (ap : Option Prompt) (tpl : ResolvedTemplate) : String :=
  match ap, tpl with
  | some p, .hub _ =>
    let vars :=
      match p.langchain_prompt with
      | some lc => lc.inputVariables.getD ["content"]
      | none => ["content"]
    if vars.contains "content" then "content"
    else if vars.contains "post" then "post"
    else if vars.contains "text" then "text"
    else vars.headD "undefined"
  | _, _ => "content"

/-- The repair step after a strict-parse failure: apply the extraction regex
to the raw response and `JSON.parse` the match; raise when there is no match
or the match does not parse. -/
def repairParse (raw : String) : Except String Json :=
  match extractJson raw with
  | some s =>
    match jsonParse s with
    | some j => .ok j
    | none => .error ("Failed to parse extracted JSON: " ++ s)
  | none => .error ("No JSON found in response: " ++ raw)

/-- The analysis value: the strict-JSON chain result, or on its failure a
raw re-invocation followed by the repair step (a raw-invocation failure
propagates). -/
def strictOrRepair (env : Env) (key content : String) : Except String Json :=
  match env.chainInvoke key content with
  | .ok j => .ok j
  | .error _ =>
    match env.rawInvoke key content with
    | .ok raw => repairParse raw
    | .error e => .error e

/-- One score field of the validated analysis:
`typeof analysis.k === 'number' ? analysis.k : 0.5`. -/
def scoreOf (j : Json) (k : String) : ℚ :=
  match j.getField k with
  | some (.num q) => q
  | _ => 1/2

/-- JS truthiness of `activePrompt?.metadata?.version`. -/
def apVersionTruthy (ap : Option Prompt) : Bool :=
  match ap with
  | some p =>
    match p.metadata.version with
    | some v => v != ""
    | none => false
  | none => false

/-- JS truthiness of `activePrompt?.metadata?.is_langchain_prompt`. -/
def apIsLangchain (ap : Option Prompt) : Bool :=
  match ap with
  | some p => p.metadata.is_langchain_prompt
  | none => false

/-- The `validatedAnalysis` object (lines 147-158 of the analyzer). Note the
provenance expression
`activePrompt?.metadata?.version || activePrompt?.metadata?.is_langchain_prompt ? 'latest' : 'fallback'`
parses in JS as `(a || b) ? 'latest' : 'fallback'`. -/
def validateAnalysis (post : RedditPost) (ap : Option Prompt) (j : Json) :
    AnalysisResult :=
  { summary :=
      match j.getField "summary" with
      | some v => if v.jsTruthy then v else .str (post.title.take 200)
      | none => .str (post.title.take 200)
    sentiment_score := scoreOf j "sentiment_score"
    relevance_score := scoreOf j "relevance_score"
    innovation_score := scoreOf j "innovation_score"
    market_viability := scoreOf j "market_viability"
    tags :=
      match j.getField "tags" with
      | some (.arr xs) => xs
      | _ => [.str "General"]
    prompt_id := jsStrOr (ap.map (fun p => p.id)) "fallback"
    prompt_version :=
      if apVersionTruthy ap || apIsLangchain ap then "latest" else "fallback" }

/-- The degraded analysis returned by the top-level catch of `analyzePost`. -/
def degradedResult (post : RedditPost) : AnalysisResult :=
  { summary := .str (post.title.take 200)
    sentiment_score := 1/2
    relevance_score := 1/2
    innovation_score := 1/2
    market_viability := 1/2
    tags := [.str "Unanalyzed"]
    prompt_id := "error"
    prompt_version := "error" }

/-- The body of `analyzePost` inside its top-level `try`: template
resolution, chain invocation with repair, structural validation
(`!analysis || typeof analysis !== 'object'` throws), field validation. -/
def analyzePostE (post : RedditPost) (env : Env) : Except String AnalysisResult :=
  match resolvePrompt env with
  | .error e => .error e
  | .ok (ap, tpl) =>
    match strictOrRepair env (chainKey ap tpl) (mkContent post) with
    | .error e => .error e
    | .ok analysis =>
      if analysis.isObjectLike then .ok (validateAnalysis post ap analysis)
      else .error "Invalid analysis response from AI"

/-- Embedding of `analyzePost`: the body's result, with every failure caught
by the top-level `catch` and converted to the degraded analysis. -/
def analyzePost (post : RedditPost) (env : Env) : AnalysisResult :=
  match analyzePostE post env with
  | .ok r => r
  | .error _ => degradedResult post

/-! ## Orchestrator (`scripts/reddit-scraper.js`) -/

/-- The `postData` record built per post in `analyzeRedditPosts`. -/
def mkPostData (post : RedditPost) : PostData :=
  { reddit_id := post.id
    subreddit := post.source_subreddit
    title := post.title
    content := jsStrOr post.selftext ""
    author := post.author
    upvotes := jsNatOrZero post.ups
    comments := jsNatOrZero post.num_comments
    url := "https://reddit.com" ++ post.permalink
    metadata := .obj [("reddit_created_utc", post.created_utc),
                      ("reddit_score", post.score),
                      ("reddit_upvote_ratio", post.upvote_ratio)] }

/-- The `analyticsData` record built per post in `analyzeRedditPosts`;
`trending_score` is `(post.ups || 0) + (post.num_comments || 0) * 2`. -/
def mkAnalyticsData (post : RedditPost) (analysis : AnalysisResult) :
    AnalyticsData :=
  { sentiment_score := analysis.sentiment_score
    relevance_score := analysis.relevance_score
    innovation_score := analysis.innovation_score
    market_viability := analysis.market_viability
    trending_score := jsNatOrZero post.ups + jsNatOrZero post.num_comments * 2
    ai_summary := analysis.summary
    tags := some analysis.tags
    prompt_id := some (if analysis.prompt_id = "" then "fallback" else analysis.prompt_id)
    prompt_version := some (if analysis.prompt_version = "" then "fallback" else analysis.prompt_version) }

/-- The run's final exit decision (`main`, after the job body completes):
exit 1 when `totalErrors > totalProcessed * 0.5`, else exit 0. -/
def jobExitCode (totalProcessed totalErrors : Nat) : Nat :=
  if (totalErrors : ℚ) > (totalProcessed : ℚ) * (1/2) then 1 else 0

/-! ## Concrete fixtures used by witnesses and counterexamples -/

/-- A concrete fetched post. -/
def post0 : RedditPost :=
  { id := "abc123"
    title := "Hello World"
    selftext := none
    author := "alice"
    permalink := "/r/saas/abc123"
    ups := some 10
    num_comments := some 5
    source_subreddit := "saas"
    created_utc := .null
    score := .null
    upvote_ratio := .null }

/-- An environment where even the fallback-prompt load fails. -/
def envFail : Env :=
  { admin := false
    getPrompts := .error "unused"
    fallbackPrompt := .error "ENOENT"
    chainInvoke := fun _ _ => .error "unused"
    rawInvoke := fun _ _ => .error "unused" }

/-- An environment whose model returns a sentiment score of 2 (out of range). -/
def envScore2 : Env :=
  { admin := false
    getPrompts := .error "unused"
    fallbackPrompt := .ok "T"
    chainInvoke := fun _ _ => .ok (.obj [("sentiment_score", .num 2)])
    rawInvoke := fun _ _ => .error "unused" }

/-- A 50-character placeholder name (not shorter than 50). -/
def varLong : String := String.mk (List.replicate 50 'a')

/-- An active hub prompt declaring the single over-long placeholder. -/
def promptLong : Prompt :=
  { id := "hub-1"
    prompt := "P"
    metadata := { is_active := true, version := some "v2", is_langchain_prompt := true }
    langchain_prompt := some { inputVariables := some [varLong] } }

/-- An environment serving `promptLong`. -/
def envLongVar : Env :=
  { admin := true
    getPrompts := .ok [promptLong]
    fallbackPrompt := .ok "T"
    chainInvoke := fun _ _ => .ok (.obj [])
    rawInvoke := fun _ _ => .error "unused" }

/-- The hub prompt object declaring placeholders `["foo", "bar"]`. -/
def lcFooBar : LCPrompt := { inputVariables := some ["foo", "bar"] }

/-- An active hub prompt declaring placeholders `["foo", "bar"]`. -/
def promptFooBar : Prompt :=
  { id := "hub-2"
    prompt := "P"
    metadata := { is_active := true, version := some "v7", is_langchain_prompt := true }
    langchain_prompt := some lcFooBar }

/-- An environment serving `promptFooBar`. -/
def envFooBar : Env :=
  { admin := true
    getPrompts := .ok [promptFooBar]
    fallbackPrompt := .ok "T"
    chainInvoke := fun _ _ => .ok (.obj [])
    rawInvoke := fun _ _ => .error "unused" }

/-- An active non-hub registry prompt with version string "v3". -/
def promptV3 : Prompt :=
  { id := "p-9"
    prompt := "T"
    metadata := { is_active := true, version := some "v3", is_langchain_prompt := false }
    langchain_prompt := none }

/-- An environment serving `promptV3` with a successful model call. -/
def envVersioned : Env :=
  { admin := true
    getPrompts := .ok [promptV3]
    fallbackPrompt := .error "unused"
    chainInvoke := fun _ _ => .ok (.obj [])
    rawInvoke := fun _ _ => .error "unused" }

/-- A raw model response holding two top-level JSON objects. -/
def rawTwoObjs : String := "\x7b\"summary\":\"x\"\x7d \x7b\"y\":2\x7d"

/-- An environment whose strict parse fails and whose raw response is
`rawTwoObjs`. -/
def envRepairTwo : Env :=
  { admin := false
    getPrompts := .error "unused"
    fallbackPrompt := .ok "T"
    chainInvoke := fun _ _ => .error "not json"
    rawInvoke := fun _ _ => .ok rawTwoObjs }

/-- A raw model response with one embedded JSON object. -/
def rawOneObj : String := "prefix \x7b\"summary\":\"x\"\x7d suffix"

/-- An environment whose strict parse fails and whose raw response is
`rawOneObj`. -/
def envRepairOne : Env :=
  { admin := false
    getPrompts := .error "unused"
    fallbackPrompt := .ok "T"
    chainInvoke := fun _ _ => .error "not json"
    rawInvoke := fun _ _ => .ok rawOneObj }

/-- A fully healthy store behavior. -/
def behOk : DbBehavior :=
  { checkRaise := none, checkErrObj := false
    postInsert := .ok, analyticsInsert := .ok }

/-- A behavior where the parent insert returns an error object. -/
def behPostErr : DbBehavior :=
  { checkRaise := none, checkErrObj := false
    postInsert := .errObj "dup", analyticsInsert := .ok }

/-- A behavior where the analytics insert returns an error object. -/
def behAnErr : DbBehavior :=
  { checkRaise := none, checkErrObj := false
    postInsert := .ok, analyticsInsert := .errObj "fk" }

/-- A behavior where the existence check's promise rejects. -/
def behCheckRaise : DbBehavior :=
  { checkRaise := some "net down", checkErrObj := false
    postInsert := .ok, analyticsInsert := .ok }

/-- Concrete parent-table input derived from `post0`. -/
def pd0 : PostData := mkPostData post0

/-- Concrete dependent-table input derived from `post0`'s degraded analysis. -/
def ad0 : AnalyticsData := mkAnalyticsData post0 (degradedResult post0)

/-- The empty store. -/
def dbEmpty : DbState := { posts := [], analytics := [], nextId := 1 }

/-- A store already holding `post0`'s parent row. -/
def dbOne : DbState :=
  { posts := [newPostRow pd0 dbEmpty], analytics := [], nextId := 2 }

/-! ## Helper lemmas -/

/-- Every `SaveResult` is a `skipped`, a `saved` or an `error`. -/
theorem saveResult_cases (r : SaveResult) :
    (∃ s, r = .skipped s) ∨ (∃ w, r = .saved w) ∨ (∃ m, r = .error m) := by
  rcases r with s | w | m
  · exact .inl ⟨s, rfl⟩
  · exact .inr (.inl ⟨w, rfl⟩)
  · exact .inr (.inr ⟨m, rfl⟩)

/-- When no stored row carries the key, the existence-check filter is empty. -/
theorem filter_reddit_id_nil (l : List PostRow) (k : String)
    (h : ∀ r ∈ l, r.reddit_id ≠ k) :
    l.filter (fun r => r.reddit_id == k) = [] :=
  List.filter_eq_nil_iff.mpr (fun r hr => by simp [h r hr])

/-- Under the schema's uniqueness of `reddit_id`, a present key is matched by
exactly one row, which is what `.single()` requires to return it. -/
theorem filter_reddit_id_one : ∀ (l : List PostRow) (k : String),
    l.Pairwise (fun r s => r.reddit_id ≠ s.reddit_id) →
    (∃ r0 ∈ l, r0.reddit_id = k) →
    (l.filter (fun r => r.reddit_id == k)).length = 1
  | [], _, _, hex => absurd hex (by simp)
  | r :: t, k, hp, hex => by
    rw [List.pairwise_cons] at hp
    rcases hex with ⟨r0, hr0, hk⟩
    rcases List.mem_cons.mp hr0 with h | h
    · subst h
      have ht : t.filter (fun s => s.reddit_id == k) = [] :=
        List.filter_eq_nil_iff.mpr (fun s hs => by
          simp only [beq_iff_eq]
          exact fun hsk => hp.1 s hs (hk.trans hsk.symm))
      simp [List.filter_cons, hk, ht]
    · have hne : r.reddit_id ≠ k := fun hrk => hp.1 r0 h (by rw [hrk, hk])
      have hrec := filter_reddit_id_one t k hp.2 ⟨r0, h, hk⟩
      simp [List.filter_cons, hne, hrec]

/-! ## Claim theorems -/

/-- C6: for every item whose natural key (reddit_id) already has a parent
record in the store (which, under the schema's unique constraint on
`reddit_id`, means exactly one matching row) and an existence check that
reads the store normally, `savePostToDatabase` returns `skipped` and leaves
the store — both tables — unchanged. -/
theorem save_skips_existing (p : PostData) (a : AnalyticsData)
    (db : DbState) (beh : DbBehavior)
    (hp : db.posts.Pairwise (fun r s => r.reddit_id ≠ s.reddit_id))
    (hmem : ∃ r ∈ db.posts, r.reddit_id = p.reddit_id)
    (h1 : beh.checkRaise = none) (h2 : beh.checkErrObj = false) :
    savePostToDatabase p a db beh = (.skipped "Post already exists", db) := by
  have hlen := filter_reddit_id_one db.posts p.reddit_id hp hmem
  simp [savePostToDatabase, h1, h2, hlen]

/-- Witness for C6: a store holding `post0`'s row skips, with no write. -/
theorem save_skips_existing_witness :
    savePostToDatabase pd0 ad0 dbOne behOk = (.skipped "Post already exists", dbOne) :=
  save_skips_existing pd0 ad0 dbOne behOk (by simp [dbOne])
    ⟨newPostRow pd0 dbEmpty, by simp [dbOne], rfl⟩ rfl rfl

/-- C5: asymmetric partial-failure tolerance of `savePostToDatabase` for a
new item, with insert failures reported through the client's error-object
channel: a parent-insert failure yields `error` carrying the underlying
message (prefixed with "Failed to save post: ") and leaves the store
untouched — in particular no analytics row without a parent row, since the
parent insert happens first; a parent-insert success followed by an
analytics-insert failure yields `saved` with a warning, the parent row
persisted and no analytics row. -/
theorem save_partial_failure_asymmetry (p : PostData) (a : AnalyticsData)
    (db : DbState) (beh : DbBehavior)
    (h1 : beh.checkRaise = none) (h2 : beh.checkErrObj = false)
    (h3 : ∀ r ∈ db.posts, r.reddit_id ≠ p.reddit_id) :
    (∀ m, beh.postInsert = .errObj m →
       savePostToDatabase p a db beh = (.error ("Failed to save post: " ++ m), db)) ∧
    (∀ m, beh.postInsert = .raise m →
       savePostToDatabase p a db beh = (.error m, db)) ∧
    (∀ m, beh.postInsert = .ok → beh.analyticsInsert = .errObj m →
       savePostToDatabase p a db beh =
         (.saved (some ("Post saved but analytics failed: " ++ m)),
          { posts := db.posts ++ [newPostRow p db]
            analytics := db.analytics
            nextId := db.nextId + 1 })) := by
  have hnil := filter_reddit_id_nil db.posts p.reddit_id h3
  refine ⟨fun m hm => ?_, fun m hm => ?_, fun m hm hm2 => ?_⟩ <;>
    simp [savePostToDatabase, h1, h2, hnil, hm, *]

/-- Witness for C5: on the empty store, a parent-insert error object returns
`error` with the message and no write; an analytics-insert error object
returns `saved` with a warning and only the parent row written. -/
theorem save_partial_failure_asymmetry_witness :
    savePostToDatabase pd0 ad0 dbEmpty behPostErr =
      (.error ("Failed to save post: " ++ "dup"), dbEmpty) ∧
    savePostToDatabase pd0 ad0 dbEmpty behAnErr =
      (.saved (some ("Post saved but analytics failed: " ++ "fk")),
       { posts := dbEmpty.posts ++ [newPostRow pd0 dbEmpty]
         analytics := dbEmpty.analytics
         nextId := dbEmpty.nextId + 1 }) :=
  ⟨(save_partial_failure_asymmetry pd0 ad0 dbEmpty behPostErr rfl rfl
      (by simp [dbEmpty])).1 "dup" rfl,
   (save_partial_failure_asymmetry pd0 ad0 dbEmpty behAnErr rfl rfl
      (by simp [dbEmpty])).2.2 "fk" rfl rfl⟩

/-- C10: `savePostToDatabase` is total at its interface: its Lean embedding
returns a plain `SaveResult` (not an `Except`), always one of the
`skipped`/`saved`/`error` variants; a rejected existence check and a
rejected analytics insert (JS exceptions inside the `try`) are caught and
converted into the `error` variant with the exception's message. -/
theorem save_total_interface (p : PostData) (a : AnalyticsData)
    (db : DbState) (beh : DbBehavior) :
    ((∃ s, (savePostToDatabase p a db beh).1 = .skipped s) ∨
     (∃ w, (savePostToDatabase p a db beh).1 = .saved w) ∨
     (∃ m, (savePostToDatabase p a db beh).1 = .error m)) ∧
    (∀ m, beh.checkRaise = some m →
       savePostToDatabase p a db beh = (.error m, db)) ∧
    (∀ m, beh.checkRaise = none → beh.checkErrObj = false →
       (∀ r ∈ db.posts, r.reddit_id ≠ p.reddit_id) →
       beh.postInsert = .ok → beh.analyticsInsert = .raise m →
       savePostToDatabase p a db beh =
         (.error m,
          { posts := db.posts ++ [newPostRow p db]
            analytics := db.analytics
            nextId := db.nextId + 1 })) := by
  refine ⟨saveResult_cases _, fun m hm => by simp [savePostToDatabase, hm], ?_⟩
  · intro m h1 h2 h3 h4 h5
    have hnil := filter_reddit_id_nil db.posts p.reddit_id h3
    simp [savePostToDatabase, h1, h2, h4, h5, hnil]

/-- Witness for C10: a rejected existence check is converted to `error`. -/
theorem save_total_interface_witness :
    savePostToDatabase pd0 ad0 dbEmpty behCheckRaise = (.error "net down", dbEmpty) :=
  (save_total_interface pd0 ad0 dbEmpty behCheckRaise).2.1 "net down" rfl

/-- C2: the trending score computed for every fetched post equals
`upvotes + 2 * comments` for all non-negative integer counts, and the
analytics row persisted by a successful save carries exactly that value. -/
theorem trending_score_formula (post : RedditPost) (analysis : AnalysisResult)
    (u c : Nat) (db : DbState) (beh : DbBehavior)
    (hu : post.ups = some u) (hc : post.num_comments = some c)
    (h1 : beh.checkRaise = none) (h2 : beh.checkErrObj = false)
    (h3 : ∀ r ∈ db.posts, r.reddit_id ≠ (mkPostData post).reddit_id)
    (h4 : beh.postInsert = .ok) (h5 : beh.analyticsInsert = .ok) :
    (mkAnalyticsData post analysis).trending_score = u + 2 * c ∧
    ∃ row,
      ((savePostToDatabase (mkPostData post) (mkAnalyticsData post analysis)
          db beh).2.analytics).getLast? = some row ∧
      row.trending_score = u + 2 * c := by
  have hts : (mkAnalyticsData post analysis).trending_score = u + 2 * c := by
    simp only [mkAnalyticsData, jsNatOrZero, hu, hc]
    split_ifs <;> omega
  refine ⟨hts, ?_⟩
  have hnil := filter_reddit_id_nil db.posts (mkPostData post).reddit_id h3
  refine ⟨newAnalyticsRow (mkAnalyticsData post analysis)
            (newPostRow (mkPostData post) db).id, ?_, ?_⟩
  · simp [savePostToDatabase, h1, h2, h4, h5, hnil, List.getLast?_concat]
  · simp [newAnalyticsRow, hts]

/-- Witness for C2: `post0` (10 upvotes, 5 comments) persists trending
score `10 + 2 * 5`. -/
theorem trending_score_formula_witness :
    (mkAnalyticsData post0 (degradedResult post0)).trending_score = 10 + 2 * 5 :=
  (trending_score_formula post0 (degradedResult post0) 10 5 dbEmpty behOk
      rfl rfl rfl rfl (by simp [dbEmpty]) rfl rfl).1

/-- C8: after the job body completes, the run exits non-zero iff the error
count strictly exceeds half the processed items (`errors > processed * 0.5`
over the rationals is `2 * errors > processed` over the integers); in every
other case — in particular whenever zero items are processed, where the
error count (one per processed item at most) is also zero — it exits 0. -/
theorem run_exit_code_iff (p e : Nat) :
    (jobExitCode p e = 0 ∨ jobExitCode p e = 1) ∧
    (jobExitCode p e ≠ 0 ↔ 2 * e > p) ∧
    (e ≤ p → p = 0 → jobExitCode p e = 0) := by
  have key : ((e : ℚ) > (p : ℚ) * (1/2)) ↔ 2 * e > p := by
    rw [gt_iff_lt, gt_iff_lt]
    constructor
    · intro h
      have h2 : (p : ℚ) < 2 * (e : ℚ) := by linarith
      exact_mod_cast h2
    · intro h
      have h2 : (p : ℚ) < 2 * (e : ℚ) := by exact_mod_cast h
      linarith
  unfold jobExitCode
  by_cases h : (e : ℚ) > (p : ℚ) * (1/2)
  · rw [if_pos h]
    refine ⟨Or.inr rfl, ⟨fun _ => key.mp h, fun _ => one_ne_zero⟩, ?_⟩
    intro hep hp0
    exfalso
    have := key.mp h
    omega
  · rw [if_neg h]
    refine ⟨Or.inl rfl, ?_, fun _ _ => rfl⟩
    constructor
    · intro hne
      exact absurd rfl hne
    · intro hlt
      exact absurd (key.mpr hlt) h

/-- C1: the Scoring Engine's `analyzePost` never propagates a failure: it
returns a plain `AnalysisResult` for every post and environment, and
whenever any internal step fails (prompt fetch, fallback load, model call,
parse exhaustion, structural validation) the top-level catch yields the
degraded result: all four scores 0.5, summary the title truncated to its
first 200 characters, tags `["Unanalyzed"]`, provenance `"error"`. -/
theorem analyzePost_fail_open (post : RedditPost) (env : Env)
    (h : ∃ e, analyzePostE post env = .error e) :
    analyzePost post env =
      { summary := .str (post.title.take 200)
        sentiment_score := 1/2
        relevance_score := 1/2
        innovation_score := 1/2
        market_viability := 1/2
        tags := [.str "Unanalyzed"]
        prompt_id := "error"
        prompt_version := "error" } := by
  obtain ⟨e, he⟩ := h
  simp [analyzePost, he, degradedResult]

set_option maxRecDepth 4000 in
/-- Witness for C1: when even the fallback-prompt load fails, `post0` gets
the degraded result. -/
theorem analyzePost_fail_open_witness :
    analyzePost post0 envFail =
      { summary := .str "Hello World"
        sentiment_score := 1/2
        relevance_score := 1/2
        innovation_score := 1/2
        market_viability := 1/2
        tags := [.str "Unanalyzed"]
        prompt_id := "error"
        prompt_version := "error" } :=
  analyzePost_fail_open post0 envFail ⟨"ENOENT", rfl⟩

/-- C9: any successful (non-degraded) analysis has `prompt_version` equal to
the literal "latest" whenever the active prompt's metadata carries a truthy
version string (never the version string itself, because
`a || b ? 'latest' : 'fallback'` parses as `(a || b) ? 'latest' : 'fallback'`),
and equal to "fallback" exactly when both the version and the hub flag are
falsy. -/
theorem prompt_version_latest_or_fallback (post : RedditPost) (env : Env)
    (r : AnalysisResult) (ap : Option Prompt) (tpl : ResolvedTemplate)
    (hr : analyzePostE post env = .ok r)
    (hres : resolvePrompt env = .ok (ap, tpl)) :
    (apVersionTruthy ap = true → r.prompt_version = "latest") ∧
    (r.prompt_version = "fallback" ↔
       apVersionTruthy ap = false ∧ apIsLangchain ap = false) := by
  have hlf : ("latest" : String) ≠ "fallback" := by decide
  unfold analyzePostE at hr
  rw [hres] at hr
  dsimp only at hr
  rcases hinv : strictOrRepair env (chainKey ap tpl) (mkContent post) with e | j <;>
    rw [hinv] at hr <;> dsimp only at hr
  · exact absurd hr (by simp)
  · by_cases hobj : j.isObjectLike = true
    · rw [if_pos hobj] at hr
      injection hr with hv
      subst hv
      constructor
      · intro hver
        simp [validateAnalysis, hver]
      · show (if apVersionTruthy ap || apIsLangchain ap then "latest" else "fallback") = "fallback" ↔ _
        by_cases h1 : apVersionTruthy ap <;> by_cases h2 : apIsLangchain ap <;>
          simp [h1, h2, hlf]
    · rw [if_neg hobj] at hr
      exact absurd hr (by simp)

/-- Witness for C9: an active prompt versioned "v3" yields
`prompt_version = "latest"`. -/
theorem prompt_version_latest_or_fallback_witness :
    apVersionTruthy (some promptV3) = true ∧
    (validateAnalysis post0 (some promptV3) (.obj [])).prompt_version = "latest" :=
  ⟨rfl, (prompt_version_latest_or_fallback post0 envVersioned
      (validateAnalysis post0 (some promptV3) (.obj []))
      (some promptV3) (.fromString "T") rfl rfl).1 rfl⟩

/-- C3 counterexample: a model output with `sentiment_score: 2` is persisted
as 2, outside [0.0, 1.0] — the code substitutes 0.5 only for missing or
non-numeric fields and never clamps numeric values into the range. -/
theorem score_clamping_counterexample :
    (analyzePost post0 envScore2).sentiment_score = 2 ∧
    ¬ ((analyzePost post0 envScore2).sentiment_score ≤ 1) ∧
    (mkAnalyticsData post0 (analyzePost post0 envScore2)).sentiment_score = 2 ∧
    (newAnalyticsRow (mkAnalyticsData post0 (analyzePost post0 envScore2))
        1).sentiment_score = 2 := by
  have h : (analyzePost post0 envScore2).sentiment_score = 2 := rfl
  refine ⟨h, ?_, rfl, rfl⟩
  rw [h]
  norm_num

/-- C3 (amended): each of the four persisted scores equals the model's value
whenever that field is a number — passed through unchanged, with no
clamping, so out-of-range numbers persist as-is — and equals exactly 0.5
when the field is missing or not a number. -/
theorem score_default_no_clamp (post : RedditPost) (ap : Option Prompt)
    (j : Json) (k : String) :
    ((validateAnalysis post ap j).sentiment_score = scoreOf j "sentiment_score" ∧
     (validateAnalysis post ap j).relevance_score = scoreOf j "relevance_score" ∧
     (validateAnalysis post ap j).innovation_score = scoreOf j "innovation_score" ∧
     (validateAnalysis post ap j).market_viability = scoreOf j "market_viability") ∧
    ((∃ q, j.getField k = some (.num q) ∧ scoreOf j k = q) ∨
     (scoreOf j k = 1/2 ∧ ∀ q, j.getField k ≠ some (.num q))) := by
  refine ⟨⟨rfl, rfl, rfl, rfl⟩, ?_⟩
  rcases hf : j.getField k with _ | v
  · exact .inr ⟨by simp [scoreOf, hf], by simp [hf]⟩
  · cases v with
    | num q => exact .inl ⟨q, rfl, by simp [scoreOf, hf]⟩
    | null => exact .inr ⟨by simp [scoreOf, hf], by simp [hf]⟩
    | bool b => exact .inr ⟨by simp [scoreOf, hf], by simp [hf]⟩
    | str s => exact .inr ⟨by simp [scoreOf, hf], by simp [hf]⟩
    | arr xs => exact .inr ⟨by simp [scoreOf, hf], by simp [hf]⟩
    | obj kvs => exact .inr ⟨by simp [scoreOf, hf], by simp [hf]⟩

/-- Witness for C3 (amended): the numeric field 2 passes through. -/
theorem score_default_no_clamp_witness :
    (∃ q, (Json.obj [("sentiment_score", Json.num 2)]).getField
        "sentiment_score" = some (.num q) ∧
       scoreOf (Json.obj [("sentiment_score", Json.num 2)]) "sentiment_score" = q) ∨
    (scoreOf (Json.obj [("sentiment_score", Json.num 2)]) "sentiment_score" = 1/2 ∧
     ∀ q, (Json.obj [("sentiment_score", Json.num 2)]).getField
        "sentiment_score" ≠ some (.num q)) :=
  (score_default_no_clamp post0 none
    (Json.obj [("sentiment_score", Json.num 2)]) "sentiment_score").2

/-- C4 counterexample: a hub template declaring the single 50-character
placeholder `varLong` declares neither a recognized name nor more than one
placeholder, yet the resolver treats it as invalid and falls through to the
fallback template (observable as `prompt_id = "fallback"` instead of the hub
prompt's id "hub-1"). -/
theorem hub_placeholder_rule_counterexample :
    hasValidInputVars [varLong] = false ∧
    ¬ (1 < ([varLong] : List String).length) ∧
    ¬ (∃ v ∈ ([varLong] : List String), v ∈ recognizedVars) ∧
    resolvePrompt envLongVar = .ok (none, .fromString "T") ∧
    (analyzePost post0 envLongVar).prompt_id = "fallback" ∧
    promptLong.id = "hub-1" := by
  refine ⟨rfl, by simp, by decide, rfl, rfl, rfl⟩

/-- Boolean characterization of `hasValidInputVars` being false. -/
theorem hasValidInputVars_eq_false_iff (vars : List String) :
    hasValidInputVars vars = false ↔
      (¬ ∃ v ∈ vars, v ∈ recognizedVars) ∧
      ¬ (vars.length = 1 ∧ (vars.headD "").length < 50) := by
  simp [hasValidInputVars, List.any_eq_true, not_or]

/-- C4 (amended): with an active hub prompt in hand, the resolver falls
through to the fallback template exactly when the declared placeholders
contain no recognized name AND are not a single placeholder name shorter
than 50 characters (so also for zero placeholders or one over-long name,
not only for "more than one"); the fall-through substitutes the fallback
template without raising. -/
theorem hub_placeholder_fallback_iff (env : Env) (p : Prompt) (lc : LCPrompt)
    (hfind : findActivePrompt env = some p)
    (hlc : p.metadata.is_langchain_prompt = true)
    (hlp : p.langchain_prompt = some lc) :
    resolvePrompt env =
      (if hasValidInputVars (lc.inputVariables.getD []) then
         .ok (some p, .hub p)
       else (env.fallbackPrompt).map (fun fb => (none, .fromString fb))) ∧
    (hasValidInputVars (lc.inputVariables.getD []) = false ↔
      (¬ ∃ v ∈ lc.inputVariables.getD [], v ∈ recognizedVars) ∧
      ¬ ((lc.inputVariables.getD []).length = 1 ∧
         ((lc.inputVariables.getD []).headD "").length < 50)) := by
  refine ⟨?_, hasValidInputVars_eq_false_iff _⟩
  unfold resolvePrompt
  rw [hfind]
  dsimp only
  rw [hlc, hlp]

/-- Witness for C4 (amended): the `["foo","bar"]` hub template falls through
to the fallback template without raising. -/
theorem hub_placeholder_fallback_iff_witness :
    resolvePrompt envFooBar = .ok (none, .fromString "T") ∧
    hasValidInputVars ["foo", "bar"] = false ∧
    (analyzePost post0 envFooBar).prompt_id = "fallback" := by
  have h := (hub_placeholder_fallback_iff envFooBar promptFooBar lcFooBar rfl rfl rfl).1
  exact ⟨by rw [h]; rfl, rfl, rfl⟩

/-- C7 counterexample: on a raw response holding two top-level JSON objects,
the first balanced-brace substring parses fine (summary "x"), but the code's
greedy regex spans both objects, `JSON.parse` fails on the span, the repair
step raises, and the engine returns the degraded result instead of
summary "x" — so the extraction is not "the first balanced-brace substring". -/
theorem repair_regex_counterexample :
    extractJson rawTwoObjs = some rawTwoObjs ∧
    firstBalancedBrace rawTwoObjs = some "\x7b\"summary\":\"x\"\x7d" ∧
    jsonParse "\x7b\"summary\":\"x\"\x7d" = some (.obj [("summary", .str "x")]) ∧
    jsonParse rawTwoObjs = none ∧
    repairParse rawTwoObjs =
      .error ("Failed to parse extracted JSON: " ++ rawTwoObjs) ∧
    analyzePost post0 envRepairTwo = degradedResult post0 ∧
    (analyzePost post0 envRepairTwo).tags = [.str "Unanalyzed"] :=
  ⟨rfl, rfl, rfl, rfl, rfl, rfl, rfl⟩

/-- Dropping while not the closing brace stops at the first closing brace. -/
theorem dropWhile_ne_close (a b : List Char) (h : '\x7d' ∉ a) :
    (a ++ '\x7d' :: b).dropWhile (fun d => d != '\x7d') = '\x7d' :: b := by
  induction a with
  | nil => simp [List.dropWhile]
  | cons x xs ih =>
    have hx : x ≠ '\x7d' := fun hxe => h (hxe ▸ List.mem_cons_self x xs)
    have hxs : '\x7d' ∉ xs := fun hm => h (List.mem_cons_of_mem x hm)
    simp [List.dropWhile_cons, hx, ih hxs]

/-- The regex scanner on a decomposed input: it spans from the first opening
brace to the last closing brace, greedily across everything between. -/
theorem extractGo_span (u v w : List Char) (hu : '\x7b' ∉ u) (hw : '\x7d' ∉ w) :
    extractGo (u ++ '\x7b' :: (v ++ '\x7d' :: w)) =
      some ('\x7b' :: (v ++ ['\x7d'])) := by
  induction u with
  | nil =>
    have hmem : '\x7d' ∈ v ++ '\x7d' :: w :=
      List.mem_append_right v (List.mem_cons_self _ _)
    rw [List.nil_append]
    show extractGo ('\x7b' :: (v ++ '\x7d' :: w)) = _
    rw [extractGo, if_pos ⟨rfl, hmem⟩]
    have h1 : (v ++ '\x7d' :: w).reverse = w.reverse ++ '\x7d' :: v.reverse := by
      simp [List.reverse_cons]
    have hwrev : '\x7d' ∉ w.reverse := by simpa using hw
    rw [h1, dropWhile_ne_close _ _ hwrev]
    simp
  | cons x xs ih =>
    have hx : x ≠ '\x7b' := fun hxe => hu (hxe ▸ List.mem_cons_self x xs)
    have hxs : '\x7b' ∉ xs := fun hm => hu (List.mem_cons_of_mem x hm)
    rw [List.cons_append, extractGo, if_neg (fun hc => hx hc.1)]
    exact ih hxs

/-- C7 (amended): the repair step extracts the greedy span of the raw text
from the first opening brace (having a closing brace after it) to the last
closing brace — not the first balanced-brace substring — and `JSON.parse`s
it; it raises when no span exists or when the span does not parse (the
error then being caught by the fail-open top level). A response with a
single embedded object, `rawOneObj`, still yields summary "x" with the four
scores defaulted to 0.5. -/
theorem repair_greedy_extraction :
    (∀ u v w : List Char, '\x7b' ∉ u → '\x7d' ∉ w →
       extractJson (String.mk (u ++ '\x7b' :: (v ++ '\x7d' :: w))) =
         some (String.mk ('\x7b' :: (v ++ ['\x7d'])))) ∧
    (∀ s, extractJson s = none →
       repairParse s = .error ("No JSON found in response: " ++ s)) ∧
    (∀ s t, extractJson s = some t → jsonParse t = none →
       repairParse s = .error ("Failed to parse extracted JSON: " ++ t)) ∧
    (∀ s t j, extractJson s = some t → jsonParse t = some j →
       repairParse s = .ok j) ∧
    analyzePost post0 envRepairOne =
      validateAnalysis post0 none (.obj [("summary", .str "x")]) ∧
    (analyzePost post0 envRepairOne).summary = .str "x" ∧
    (analyzePost post0 envRepairOne).sentiment_score = 1/2 ∧
    (analyzePost post0 envRepairOne).relevance_score = 1/2 ∧
    (analyzePost post0 envRepairOne).innovation_score = 1/2 ∧
    (analyzePost post0 envRepairOne).market_viability = 1/2 := by
  refine ⟨?_, ?_, ?_, ?_, rfl, rfl, rfl, rfl, rfl, rfl⟩
  · intro u v w hu hw
    show (extractGo (u ++ '\x7b' :: (v ++ '\x7d' :: w))).map String.mk = _
    rw [extractGo_span u v w hu hw]
    rfl
  · intro s hs
    simp [repairParse, hs]
  · intro s t hs ht
    simp [repairParse, hs, ht]
  · intro s t j hs hj
    simp [repairParse, hs, hj]

/-- Witness for C7 (amended): a concrete decomposed raw text is spanned
greedily. -/
theorem repair_greedy_extraction_witness :
    extractJson (String.mk ("pre ".data ++ '\x7b' ::
        ("\"a\":1".data ++ '\x7d' :: " no".data))) =
      some (String.mk ('\x7b' :: ("\"a\":1".data ++ ['\x7d']))) :=
  repair_greedy_extraction.1 "pre ".data "\"a\":1".data " no".data
    (by decide) (by decide)

/-- Witness for C8: 3 errors out of 4 exits non-zero, 2 of 4 and 0 of 0
exit zero. -/
theorem run_exit_code_iff_witness :
    (jobExitCode 4 3 ≠ 0 ↔ 2 * 3 > 4) ∧ jobExitCode 0 0 = 0 ∧ jobExitCode 4 2 = 0 := by
  refine ⟨(run_exit_code_iff 4 3).2.1, (run_exit_code_iff 0 0).2.2 (le_refl 0) rfl, ?_⟩
  rcases (run_exit_code_iff 4 2).1 with h | h
  · exact h
  · have := (run_exit_code_iff 4 2).2.1.mp (by rw [h]; exact one_ne_zero)
    omega

end StartupRadar
